import Mathlib

/-!
Verification development for the Hospital Mortuary Record System
(`Hospital-Mortuary.py`): a CRUD application over a single CSV-backed
table of mortuary records.  The Python source is shallowly embedded
below: pure helpers (`combine_date_time`, `validate_required`,
`to_date_str`, …) become Lean functions; the Streamlit button handlers
(add-record save, edit save, mark-released / mark-transferred, CSV
import) become pure functions from the current store and the collected
form inputs to the new store; the pandas DataFrame becomes a `Table`
(header plus string rows).  External effects are parameters: the local
UTC offset in minutes (`off`), the wall clock (`now`, one parameter per
`now_iso()` call site), and the UUID generator (`freshId`).
-/

namespace Mortuary

/-- The canonical column schema (`COLUMNS` in the source). -/
def COLUMNS : List String :=
  ["record_id", "body_tag_no", "deceased_name", "age", "sex",
   "dod_date", "tod_time", "cause_of_death", "ward_unit", "brought_by",
   "admitted_dt", "storage_location", "next_of_kin", "next_of_kin_contact",
   "id_docs_seen", "autopsy_required", "autopsy_date", "release_status",
   "released_dt", "released_to", "remarks", "last_updated"]

/-- `SEX_OPTIONS` in the source. -/
def SEX_OPTIONS : List String := ["Male", "Female", "Other", "Unknown"]

/-- `STATUS_OPTIONS` in the source. -/
def STATUS_OPTIONS : List String := ["In Storage", "Released", "Transferred"]

/-- `YN_OPTIONS` in the source. -/
def YN_OPTIONS : List String := ["Yes", "No"]

/-- `AUTO_OPTIONS` in the source. -/
def AUTO_OPTIONS : List String := ["Yes", "No", "Pending"]

/-- A calendar date (`datetime.date`). -/
structure DateD where
  year : Nat
  month : Nat
  day : Nat
deriving Repr, DecidableEq, Inhabited

/-- A time of day at minute granularity (`datetime.time` as used by the app:
every widget value and every parsed value carries only hour and minute). -/
structure TimeT where
  hour : Nat
  minute : Nat
deriving Repr, DecidableEq, Inhabited

/-- The whitespace stripped by `str.strip()` (ASCII part). -/
def isSpaceChar (c : Char) : Bool :=
  c == ' ' || c == '\t' || c == '\n' || c == '\r' || c == '\x0b' || c == '\x0c'

/-- `s.strip()`. -/
def pyStrip (s : String) : String :=
  String.mk (((s.toList.dropWhile isSpaceChar).reverse.dropWhile isSpaceChar).reverse)

/-- Lower-case every character (`s.lower()`). -/
def lowerStr (s : String) : String :=
  String.mk (s.toList.map Char.toLower)

/-- Split a character list on a separator character (`s.split(sep)` for a
one-character separator, as used to take a date or time string apart). -/
def splitOnChar (sep : Char) : List Char → List (List Char)
  | [] => [[]]
  | c :: cs =>
    if c == sep then [] :: splitOnChar sep cs
    else
      match splitOnChar sep cs with
      | [] => [[c]]
      | g :: gs => (c :: g) :: gs

/-- The value of an ASCII digit. -/
def digitVal (c : Char) : Option Nat :=
  if '0' ≤ c ∧ c ≤ '9' then some (c.toNat - '0'.toNat) else none

/-- Read a digit run as a numeral. -/
def charsToNatAux (acc : Nat) : List Char → Option Nat
  | [] => some acc
  | c :: cs =>
    match digitVal c with
    | some d => charsToNatAux (acc * 10 + d) cs
    | none => none

/-- Gregorian leap-year test, as `datetime` implements it. -/
def isLeap (y : Nat) : Bool :=
  (y % 4 == 0 && y % 100 != 0) || (y % 400 == 0)

/-- Number of days in a month, as `datetime` validates `%d`. -/
def daysInMonth (y m : Nat) : Nat :=
  if m = 2 then (if isLeap y then 29 else 28)
  else if m = 4 ∨ m = 6 ∨ m = 9 ∨ m = 11 then 30
  else 31

/-- A numeric field of `strptime`: a non-empty all-digit run of at most
`maxLen` characters. -/
def parseNatField (maxLen : Nat) (l : List Char) : Option Nat :=
  if l.length = 0 ∨ maxLen < l.length then none else charsToNatAux 0 l

/-- `datetime.strptime(s, "%Y-%m-%d").date()`: three dash-separated numeric
fields, year in `datetime`'s 1..9999 range, month and day validated. -/
def parse_date_str (s : String) : Option DateD :=
  match splitOnChar '-' s.toList with
  | [ys, ms, ds] =>
    match parseNatField 4 ys, parseNatField 2 ms, parseNatField 2 ds with
    | some y, some m, some d =>
      if 1 ≤ y ∧ y ≤ 9999 ∧ 1 ≤ m ∧ m ≤ 12 ∧ 1 ≤ d ∧ d ≤ daysInMonth y m then
        some ⟨y, m, d⟩
      else none
    | _, _, _ => none
  | _ => none

/-- `datetime.strptime(s, "%H:%M").time()`. -/
def parse_time_str (s : String) : Option TimeT :=
  match splitOnChar ':' s.toList with
  | [hs, ms] =>
    match parseNatField 2 hs, parseNatField 2 ms with
    | some h, some m => if h ≤ 23 ∧ m ≤ 59 then some ⟨h, m⟩ else none
    | _, _ => none
  | _ => none

/-- Zero-pad a numeral to two digits. -/
def pad2 (n : Nat) : String :=
  if n < 10 then "0" ++ toString n else toString n

/-- Zero-pad a year to four digits, as `isoformat` renders `%Y`. -/
def pad4 (n : Nat) : String :=
  if n < 10 then "000" ++ toString n
  else if n < 100 then "00" ++ toString n
  else if n < 1000 then "0" ++ toString n
  else toString n

/-- Render a UTC offset given in minutes as `isoformat` does (`+HH:MM`). -/
def offsetStr (off : Int) : String :=
  (if off < 0 then "-" else "+") ++ pad2 (off.natAbs / 60) ++ ":" ++ pad2 (off.natAbs % 60)

/-- `datetime.combine(d, t).astimezone(tz.tzlocal()).isoformat(timespec="minutes")`:
a naive datetime is assumed to be local time, so `astimezone` keeps the wall
time and attaches the local offset `off` (in minutes); `timespec="minutes"`
truncates the rendering after the minute. -/
def isoMin (d : DateD) (t : TimeT) (off : Int) : String :=
  pad4 d.year ++ "-" ++ pad2 d.month ++ "-" ++ pad2 d.day ++ "T" ++
    pad2 t.hour ++ ":" ++ pad2 t.minute ++ offsetStr off

/-- The date argument of `combine_date_time`: `d: date | str`, where the
calling handlers may also pass `None` (an unset `st.date_input`). -/
inductive DInput where
  | dnone
  | dstr (s : String)
  | ddate (d : DateD)
deriving Repr, DecidableEq

/-- The time argument of `combine_date_time`: `t: time | str`. -/
inductive TInput where
  | tstr (s : String)
  | ttime (t : TimeT)
deriving Repr, DecidableEq

/-- The time component actually combined: a blank string is replaced by
`"00:00"` before parsing, a non-blank string goes through `strptime`. -/
def parseTimeInput : TInput → Option TimeT
  | .ttime t => some t
  | .tstr s => if (pyStrip s) = "" then parse_time_str "00:00" else parse_time_str s

/-- `combine_date_time(d, t)` from the source.  `not d` catches `None` and
the empty string; a whitespace-only string date is also rejected; any
`strptime` failure is caught and yields `""`. -/
def combine_date_time (d : DInput) (t : TInput) (off : Int) : String :=
  match d with
  | .dnone => ""
  | .dstr s =>
    if (pyStrip s) = "" then ""
    else
      match parse_date_str s with
      | none => ""
      | some dd =>
        match parseTimeInput t with
        | none => ""
        | some tt => isoMin dd tt off
  | .ddate dd =>
    match parseTimeInput t with
    | none => ""
    | some tt => isoMin dd tt off

/-- `to_date_str`: `"" if d is None else d.strftime("%Y-%m-%d")`. -/
def to_date_str (d : Option DateD) : String :=
  match d with
  | none => ""
  | some dd => pad4 dd.year ++ "-" ++ pad2 dd.month ++ "-" ++ pad2 dd.day

/-- `to_time_str`: `"" if t is None else t.strftime("%H:%M")`. -/
def to_time_str (t : Option TimeT) : String :=
  match t with
  | none => ""
  | some tt => pad2 tt.hour ++ ":" ++ pad2 tt.minute

/-- A value passed to `validate_required`: the handlers pass either a
string widget value, or a date widget value that may be `None`. -/
inductive FieldVal where
  | vnone
  | vstr (s : String)
  | vdate (d : DateD)
deriving Repr, DecidableEq

/-- The per-field test of `validate_required`:
`(v is None) or (isinstance(v, str) and v.strip() == "")`. -/
def fieldMissing : FieldVal → Bool
  | .vnone => true
  | .vstr s => (pyStrip s) == ""
  | .vdate _ => false

/-- `validate_required(fields)`: the labels of the missing fields, in
iteration order. -/
def validate_required (fields : List (String × FieldVal)) : List String :=
  (fields.filter (fun kv => fieldMissing kv.2)).map (fun kv => kv.1)

/-- Wrap an optional date widget value as a `FieldVal`. -/
def optDateVal (d : Option DateD) : FieldVal :=
  match d with
  | none => .vnone
  | some dd => .vdate dd

/-- One stored row, with the 22 fields of `COLUMNS`; every persisted value
is a string (`pd.read_csv(..., dtype=str, keep_default_na=False)`). -/
structure Record where
  record_id : String
  body_tag_no : String
  deceased_name : String
  age : String
  sex : String
  dod_date : String
  tod_time : String
  cause_of_death : String
  ward_unit : String
  brought_by : String
  admitted_dt : String
  storage_location : String
  next_of_kin : String
  next_of_kin_contact : String
  id_docs_seen : String
  autopsy_required : String
  autopsy_date : String
  release_status : String
  released_dt : String
  released_to : String
  remarks : String
  last_updated : String
deriving Repr, DecidableEq, Inhabited

/-- The form values collected by the Add Record tab. -/
structure AddInput where
  deceased_name : String
  age : String
  sex : String
  body_tag_no : String
  ward_unit : String
  dod : Option DateD
  tod : TimeT
  cause : String
  brought_by : String
  storage_location : String
  nok : String
  nok_contact : String
  id_docs : String
  autopsy_required : String
  autopsy_date : Option DateD
  remarks : String
  admitted_date : Option DateD
  admitted_time : TimeT
deriving Repr, DecidableEq

/-- Wrap an optional date widget value as a `combine_date_time` argument. -/
def dinputOfDate (d : Option DateD) : DInput :=
  match d with
  | none => .dnone
  | some dd => .ddate dd

/-- The record literal built by the Add Record save handler
(source lines 183–206).  `freshId` is the `str(uuid.uuid4())` result, `now`
the `now_iso()` result, `off` the local UTC offset in minutes. -/
def createRecord (freshId : String) (inp : AddInput) (now : String) (off : Int) : Record :=
  { record_id := freshId
    body_tag_no := (pyStrip inp.body_tag_no)
    deceased_name := (pyStrip inp.deceased_name)
    age := (pyStrip inp.age)
    sex := inp.sex
    dod_date := to_date_str inp.dod
    tod_time := to_time_str (some inp.tod)
    cause_of_death := (pyStrip inp.cause)
    ward_unit := (pyStrip inp.ward_unit)
    brought_by := (pyStrip inp.brought_by)
    admitted_dt := combine_date_time (dinputOfDate inp.admitted_date) (.ttime inp.admitted_time) off
    storage_location := (pyStrip inp.storage_location)
    next_of_kin := (pyStrip inp.nok)
    next_of_kin_contact := (pyStrip inp.nok_contact)
    id_docs_seen := inp.id_docs
    autopsy_required := inp.autopsy_required
    autopsy_date := match inp.autopsy_date with
      | some dd => to_date_str (some dd)
      | none => ""
    release_status := "In Storage"
    released_dt := ""
    released_to := ""
    remarks := (pyStrip inp.remarks)
    last_updated := now }

/-- Outcome of a save handler: the persisted store afterwards, and the
missing-field labels shown by `st.error` (empty list on success). -/
structure SaveResult where
  store : List Record
  errors : List String
deriving Repr, DecidableEq

/-- The required-field dict of the Add Record handler (source lines 172–177). -/
def addRequired (inp : AddInput) : List (String × FieldVal) :=
  [("Deceased Name", .vstr inp.deceased_name),
   ("Body Tag Number", .vstr inp.body_tag_no),
   ("Date of Death", optDateVal inp.dod),
   ("Storage Location", .vstr inp.storage_location)]

/-- The Add Record save handler (source lines 170–210): validate, then
either report the missing labels without touching the store, or append the
new record and save. -/
def tabAddSave (freshId : String) (inp : AddInput) (now : String) (off : Int)
    (rows : List Record) : SaveResult :=
  let missing := validate_required (addRequired inp)
  if missing = [] then
    { store := rows ++ [createRecord freshId inp now off], errors := [] }
  else
    { store := rows, errors := missing }

/-- The form values collected by the Edit / Update tab. -/
structure EditInput where
  deceased_name_e : String
  age_e : String
  sex_e : String
  body_tag_no_e : String
  dod_e : Option DateD
  tod_e : TimeT
  cause_e : String
  ward_unit_e : String
  brought_by_e : String
  storage_location_e2 : String
  nok_e : String
  nokc_e : String
  id_docs_e : String
  autopsy_req_e : String
  autopsy_date_e : Option DateD
  remarks_e : String
  status_e : String
  released_to_e : String
  released_date_e : Option DateD
  released_time_e : TimeT
deriving Repr, DecidableEq

/-- The row literal written by the Save Changes handler (source lines
397–420): every field rewritten from the form except `record_id` and
`admitted_dt`, which are kept from the existing row `rec`. -/
def updatedRecord (rec : Record) (inp : EditInput) (now : String) (off : Int) : Record :=
  { record_id := rec.record_id
    body_tag_no := (pyStrip inp.body_tag_no_e)
    deceased_name := (pyStrip inp.deceased_name_e)
    age := (pyStrip inp.age_e)
    sex := inp.sex_e
    dod_date := to_date_str inp.dod_e
    tod_time := to_time_str (some inp.tod_e)
    cause_of_death := (pyStrip inp.cause_e)
    ward_unit := (pyStrip inp.ward_unit_e)
    brought_by := (pyStrip inp.brought_by_e)
    admitted_dt := rec.admitted_dt
    storage_location := (pyStrip inp.storage_location_e2)
    next_of_kin := (pyStrip inp.nok_e)
    next_of_kin_contact := (pyStrip inp.nokc_e)
    id_docs_seen := inp.id_docs_e
    autopsy_required := inp.autopsy_req_e
    autopsy_date := match inp.autopsy_date_e with
      | some dd => to_date_str (some dd)
      | none => ""
    release_status := inp.status_e
    released_dt :=
      if inp.status_e ≠ "In Storage" then
        combine_date_time (dinputOfDate inp.released_date_e) (.ttime inp.released_time_e) off
      else ""
    released_to := if inp.status_e ≠ "In Storage" then (pyStrip inp.released_to_e) else ""
    remarks := (pyStrip inp.remarks_e)
    last_updated := now }

/-- Replace the element at position `i` (the effect of
`df.loc[row_idx, :] = {...}` and of the `df.loc[row_idx, col] = v`
assignments on the located row). -/
def updateAt (rows : List Record) (i : Nat) (f : Record → Record) : List Record :=
  match rows, i with
  | [], _ => []
  | r :: rs, 0 => f r :: rs
  | r :: rs, n + 1 => r :: updateAt rs n f

/-- The required-field dict of the Save Changes handler (source lines
387–392). -/
def editRequired (inp : EditInput) : List (String × FieldVal) :=
  [("Deceased Name", .vstr inp.deceased_name_e),
   ("Body Tag Number", .vstr inp.body_tag_no_e),
   ("Date of Death", optDateVal inp.dod_e),
   ("Storage Location", .vstr inp.storage_location_e2)]

/-- The Save Changes handler (source lines 386–423) acting on the located
row index `i`. -/
def tabEditSave (rows : List Record) (i : Nat) (inp : EditInput) (now : String)
    (off : Int) : SaveResult :=
  let missing := validate_required (editRequired inp)
  if missing = [] then
    { store := updateAt rows i (fun rec => updatedRecord rec inp now off), errors := [] }
  else
    { store := rows, errors := missing }

/-- Effect of the Mark as Released Now handler on the located row
(source lines 425–429): `n1` and `n2` are the two successive `now_iso()`
results. -/
def markReleasedRec (r : Record) (n1 n2 : String) : Record :=
  { r with release_status := "Released", released_dt := n1, last_updated := n2 }

/-- Effect of the Mark as Transferred Now handler on the located row
(source lines 433–437). -/
def markTransferredRec (r : Record) (n1 n2 : String) : Record :=
  { r with release_status := "Transferred", released_dt := n1, last_updated := n2 }

/-- The Mark as Released Now handler over the whole store. -/
def markReleased (rows : List Record) (i : Nat) (n1 n2 : String) : List Record :=
  updateAt rows i (fun r => markReleasedRec r n1 n2)

/-- The Mark as Transferred Now handler over the whole store. -/
def markTransferred (rows : List Record) (i : Nat) (n1 n2 : String) : List Record :=
  updateAt rows i (fun r => markTransferredRec r n1 n2)

/-- A pandas DataFrame of strings, as persisted to CSV: a header naming
the columns in order and one list of cells per row.  `keep_default_na=False`
with `dtype=str` makes every cell a plain string ("" for blanks). -/
structure Table where
  header : List String
  rows : List (List String)
deriving Repr, DecidableEq

/-- A table is well formed when every row has one cell per header entry
(always true of a parsed CSV). -/
def Table.Wf (t : Table) : Prop :=
  ∀ r ∈ t.rows, r.length = t.header.length

instance (t : Table) : Decidable t.Wf :=
  inferInstanceAs (Decidable (∀ r ∈ t.rows, r.length = t.header.length))

/-- The cell of row `i` at column `c` (first occurrence of `c` in the
header), "" when out of range. -/
def Table.cell (t : Table) (i : Nat) (c : String) : String :=
  (t.rows.getD i []).getD (t.header.indexOf c) ""

/-- One step of the schema-evolution loop: `if col not in df.columns:
df[col] = ""` appends the column with an empty value in every row. -/
def addColsStep (t : Table) (c : String) : Table :=
  if c ∈ t.header then t
  else { header := t.header ++ [c], rows := t.rows.map (fun r => r ++ [""]) }

/-- `for col in COLUMNS: if col not in df.columns: df[col] = ""`. -/
def addCols (cols : List String) (t : Table) : Table :=
  cols.foldl addColsStep t

/-- `df[COLUMNS]`: keep only the canonical columns, in canonical order. -/
def selectCols (t : Table) : Table :=
  { header := COLUMNS,
    rows := t.rows.map (fun r => COLUMNS.map (fun c => r.getD (t.header.indexOf c) "")) }

/-- `load_data()` applied to the persisted table: inject the declared but
absent columns as "", then reindex to the canonical column set and order. -/
def load_data (t : Table) : Table :=
  selectCols (addCols COLUMNS t)

/-- `save_data(df)`: persist `df[COLUMNS]`. -/
def save_data (t : Table) : Table :=
  selectCols t

/-- Result of parsing the uploaded CSV in the import handler: either a
table or a raised parse error with its message. -/
inductive UploadParse where
  | parsed (t : Table)
  | failed (msg : String)
deriving Repr, DecidableEq

/-- The sidebar import handler (source lines 122–134): on a parse failure
the exception is caught, an error message is shown and the store is left
alone; otherwise the uploaded table is aligned to the schema and written
over the store with `save_data`.  Returns the resulting persisted table and
the error message, if any. -/
def importHandler (store : Table) (u : UploadParse) : Table × Option String :=
  match u with
  | .failed m => (store, some ("Import failed: " ++ m))
  | .parsed t => (save_data (selectCols (addCols COLUMNS t)), none)

/-- `max(0, SEX_OPTIONS.index(v) if v in SEX_OPTIONS else 3)`: the Edit
tab's selectbox index fallback for `sex` (source line 326). -/
def sex_index (v : String) : Nat :=
  max 0 (if v ∈ SEX_OPTIONS then SEX_OPTIONS.indexOf v else 3)

/-- `max(0, STATUS_OPTIONS.index(v) if v in STATUS_OPTIONS else 0)`: the
Edit tab's selectbox index fallback for `release_status` (source lines
371–372). -/
def status_index (v : String) : Nat :=
  max 0 (if v ∈ STATUS_OPTIONS then STATUS_OPTIONS.indexOf v else 0)

/-- Does `q` occur at the head of `l`? -/
def leadsWith : List Char → List Char → Bool
  | [], _ => true
  | _ :: _, [] => false
  | a :: as, b :: bs => a == b && leadsWith as bs

/-- Does `q` occur contiguously anywhere in `l`? -/
def occursIn (q : List Char) : List Char → Bool
  | [] => leadsWith q []
  | b :: bs => leadsWith q (b :: bs) || occursIn q bs

/-- `hay.str.contains(q)` for a plain substring query. -/
def strContainsSub (hay q : String) : Bool :=
  occursIn q.toList hay.toList

/-- The filter inputs of the Browse & Filter tab. -/
structure FilterParams where
  f_status : List String
  f_sex : List String
  f_from : Option DateD
  f_to : Option DateD
  q_name : String
  q_location : String
  q_cause : String
deriving Repr, DecidableEq

/-- `if f_status: df_f = df_f[df_f["release_status"].isin(f_status)]`. -/
def filterStatus (s : List String) (rows : List Record) : List Record :=
  if s = [] then rows else rows.filter (fun r => s.contains r.release_status)

/-- `if f_sex: df_f = df_f[df_f["sex"].isin(f_sex)]`. -/
def filterSex (x : List String) (rows : List Record) : List Record :=
  if x = [] then rows else rows.filter (fun r => x.contains r.sex)

/-- Lexicographic order on calendar dates, as `datetime.date` compares. -/
def dateLe (a b : DateD) : Bool :=
  if a.year ≠ b.year then decide (a.year < b.year)
  else if a.month ≠ b.month then decide (a.month < b.month)
  else decide (a.day ≤ b.day)

/-- `(d := parse_date(x)) is not None and d >= f_from`. -/
def filterFrom (d0 : Option DateD) (rows : List Record) : List Record :=
  match d0 with
  | none => rows
  | some f => rows.filter (fun r =>
      match parse_date_str r.dod_date with
      | some d => dateLe f d
      | none => false)

/-- `(d := parse_date(x)) is not None and d <= f_to`. -/
def filterTo (d1 : Option DateD) (rows : List Record) : List Record :=
  match d1 with
  | none => rows
  | some f => rows.filter (fun r =>
      match parse_date_str r.dod_date with
      | some d => dateLe d f
      | none => false)

/-- The name/tag/next-of-kin text search (disjunction of the three
lower-cased substring matches). -/
def filterName (q : String) (rows : List Record) : List Record :=
  if (pyStrip q) = "" then rows
  else
    let ql := lowerStr (pyStrip q)
    rows.filter (fun r =>
      strContainsSub (lowerStr r.deceased_name) ql ||
      strContainsSub (lowerStr r.body_tag_no) ql ||
      strContainsSub (lowerStr r.next_of_kin) ql)

/-- The storage-location text search. -/
def filterLoc (q : String) (rows : List Record) : List Record :=
  if (pyStrip q) = "" then rows
  else rows.filter (fun r => strContainsSub (lowerStr r.storage_location) (lowerStr (pyStrip q)))

/-- The cause-of-death text search. -/
def filterCause (q : String) (rows : List Record) : List Record :=
  if (pyStrip q) = "" then rows
  else rows.filter (fun r => strContainsSub (lowerStr r.cause_of_death) (lowerStr (pyStrip q)))

/-- The Browse tab's whole filter pipeline, in source order
(lines 239–269). -/
def applyFilters (p : FilterParams) (rows : List Record) : List Record :=
  filterCause p.q_cause
    (filterLoc p.q_location
      (filterName p.q_name
        (filterTo p.f_to
          (filterFrom p.f_from
            (filterSex p.f_sex
              (filterStatus p.f_status rows))))))

/-! ## Concrete sample data (used by the witness theorems) -/

/-- A complete, valid Add Record form input. -/
def sampleAdd : AddInput :=
  { deceased_name := "Jane Doe"
    age := "60"
    sex := "Female"
    body_tag_no := "B-102"
    ward_unit := "ICU"
    dod := some ⟨2024, 3, 1⟩
    tod := ⟨10, 0⟩
    cause := "Cardiac arrest"
    brought_by := "Ward staff"
    storage_location := "Drawer 4"
    nok := "John Doe"
    nok_contact := "555-0100"
    id_docs := "No"
    autopsy_required := "Pending"
    autopsy_date := none
    remarks := ""
    admitted_date := some ⟨2024, 3, 1⟩
    admitted_time := ⟨9, 0⟩ }

/-- `sampleAdd` with the deceased name blanked. -/
def sampleAddNoName : AddInput :=
  { sampleAdd with deceased_name := "  " }

/-- A complete, valid Edit form input that sets the status back to
"In Storage" while still supplying a release date/time and a released-to
name. -/
def sampleEditInStorage : EditInput :=
  { deceased_name_e := "Jane Doe"
    age_e := "60"
    sex_e := "Female"
    body_tag_no_e := "B-102"
    dod_e := some ⟨2024, 3, 1⟩
    tod_e := ⟨10, 0⟩
    cause_e := ""
    ward_unit_e := ""
    brought_by_e := ""
    storage_location_e2 := "Drawer 4"
    nok_e := ""
    nokc_e := ""
    id_docs_e := "No"
    autopsy_req_e := "Pending"
    autopsy_date_e := none
    remarks_e := ""
    status_e := "In Storage"
    released_to_e := "Someone"
    released_date_e := some ⟨2024, 3, 2⟩
    released_time_e := ⟨11, 30⟩ }

/-- `sampleEditInStorage` with status "Released" instead. -/
def sampleEditReleased : EditInput :=
  { sampleEditInStorage with status_e := "Released" }

/-- A one-record store whose record id is "u-1". -/
def sampleRows : List Record :=
  [{ (default : Record) with record_id := "u-1", admitted_dt := "2024-03-01T09:00+05:30" }]

/-- A persisted or uploaded file with an out-of-set `sex` ("XYZ") and
`release_status` ("Gone") value, a column unknown to the schema
("mystery_col"), and most declared columns absent. -/
def sampleFileTable : Table :=
  { header := ["record_id", "sex", "release_status", "mystery_col"],
    rows := [["u-1", "XYZ", "Gone", "huh"]] }

/-! ## Helper lemmas -/

theorem updateAt_length (rows : List Record) (i : Nat) (f : Record → Record) :
    (updateAt rows i f).length = rows.length := by
  induction rows generalizing i with
  | nil => rfl
  | cons r rs ih =>
    cases i with
    | zero => rfl
    | succ n => simp only [updateAt, List.length_cons, ih]

theorem updateAt_getD_self (rows : List Record) (i : Nat) (f : Record → Record)
    (h : i < rows.length) :
    (updateAt rows i f).getD i default = f (rows.getD i default) := by
  induction rows generalizing i with
  | nil => simp at h
  | cons r rs ih =>
    cases i with
    | zero => rfl
    | succ n =>
      simp only [updateAt, List.getD_cons_succ]
      exact ih n (by simpa using h)

theorem updateAt_getD_ne (rows : List Record) (i j : Nat) (f : Record → Record)
    (h : j ≠ i) :
    (updateAt rows i f).getD j default = rows.getD j default := by
  induction rows generalizing i j with
  | nil => rfl
  | cons r rs ih =>
    cases i with
    | zero =>
      cases j with
      | zero => exact absurd rfl h
      | succ m => rfl
    | succ n =>
      cases j with
      | zero => rfl
      | succ m =>
        simp only [updateAt, List.getD_cons_succ]
        exact ih n m (by omega)

/-! ## Claim theorems -/

/-- C1: whenever the Save Changes handler of the edit flow persists an
update whose newly supplied release status is "In Storage", the saved
record has empty `released_dt` and `released_to`, regardless of the
release date/time and released-to inputs; for any other supplied status,
`released_dt` is recomputed by `combine_date_time` from the supplied
release date/time and `released_to` is the trimmed input. -/
theorem edit_save_release_fields
    (rows : List Record) (i : Nat) (inp : EditInput) (now : String) (off : Int)
    (hok : (tabEditSave rows i inp now off).errors = [])
    (hi : i < rows.length) :
    (inp.status_e = "In Storage" →
      ((tabEditSave rows i inp now off).store.getD i default).released_dt = "" ∧
      ((tabEditSave rows i inp now off).store.getD i default).released_to = "") ∧
    (inp.status_e ≠ "In Storage" →
      ((tabEditSave rows i inp now off).store.getD i default).released_dt =
        combine_date_time (dinputOfDate inp.released_date_e)
          (.ttime inp.released_time_e) off ∧
      ((tabEditSave rows i inp now off).store.getD i default).released_to =
        pyStrip inp.released_to_e) := by
  by_cases hm : validate_required (editRequired inp) = []
  · simp only [tabEditSave, hm, if_pos]
    rw [updateAt_getD_self _ _ _ hi]
    constructor
    · intro h
      simp [updatedRecord, h]
    · intro h
      simp [updatedRecord, h]
  · exact absurd (by simpa [tabEditSave, hm] using hok) hm

/-- C1 witness: a successful concrete edit with status "In Storage" and a
non-empty release date and released-to input still clears both fields. -/
theorem edit_save_release_fields_witness :
    ((tabEditSave [default] 0 sampleEditInStorage "now" 330).store.getD 0
      default).released_dt = "" ∧
    ((tabEditSave [default] 0 sampleEditInStorage "now" 330).store.getD 0
      default).released_to = "" :=
  (edit_save_release_fields [default] 0 sampleEditInStorage "now" 330
    (by decide) (by decide)).1 rfl

/-- C2: modelling `uuid.uuid4()` as an external fresh-id source, a record
created by the Add Record handler carries an id distinct from every id
already stored, and any later successful Save Changes update preserves
`record_id` and `admitted_dt` of the stored record unchanged. -/
theorem create_unique_id_edit_preserves
    (freshId : String) (inp : AddInput) (now : String) (off : Int) (rows : List Record)
    (hfresh : freshId ∉ rows.map Record.record_id)
    (rows2 : List Record) (j : Nat) (inp2 : EditInput) (now2 : String) (off2 : Int)
    (hj : j < rows2.length)
    (hok2 : (tabEditSave rows2 j inp2 now2 off2).errors = []) :
    ((tabAddSave freshId inp now off rows).errors = [] →
      ((tabAddSave freshId inp now off rows).store.getD rows.length default).record_id ∉
        rows.map Record.record_id) ∧
    ((tabEditSave rows2 j inp2 now2 off2).store.getD j default).record_id =
      (rows2.getD j default).record_id ∧
    ((tabEditSave rows2 j inp2 now2 off2).store.getD j default).admitted_dt =
      (rows2.getD j default).admitted_dt := by
  refine ⟨?_, ?_⟩
  · intro hok
    by_cases hm : validate_required (addRequired inp) = []
    · simp only [tabAddSave, hm, if_pos]
      rw [List.getD_eq_getElem?_getD, List.getElem?_concat_length]
      simpa [createRecord] using hfresh
    · exact absurd (by simpa [tabAddSave, hm] using hok) hm
  · by_cases hm : validate_required (editRequired inp2) = []
    · simp only [tabEditSave, hm, if_pos]
      rw [updateAt_getD_self _ _ _ hj]
      exact ⟨rfl, rfl⟩
    · exact absurd (by simpa [tabEditSave, hm] using hok2) hm

/-- C2 witness: with a concrete one-record store, a fresh concrete uuid and
concrete valid inputs, the created id is new and an update keeps id and
`admitted_dt`. -/
theorem create_unique_id_edit_preserves_witness :
    ((tabAddSave "u-2" sampleAdd "now" 330 sampleRows).store.getD 1
      default).record_id ∉ sampleRows.map Record.record_id ∧
    ((tabEditSave sampleRows 0 sampleEditReleased "later" 330).store.getD 0
      default).record_id = "u-1" ∧
    ((tabEditSave sampleRows 0 sampleEditReleased "later" 330).store.getD 0
      default).admitted_dt = "2024-03-01T09:00+05:30" :=
  have h := create_unique_id_edit_preserves "u-2" sampleAdd "now" 330 sampleRows
    (by decide) sampleRows 0 sampleEditReleased "later" 330 (by decide) (by decide)
  ⟨h.1 (by decide), h.2.1.trans (by decide), h.2.2.trans (by decide)⟩

/-- C3: the Add Record save handler aborts with the list of missing
required-field labels and leaves the store untouched exactly when one of
Deceased Name, Body Tag Number, Date of Death, Storage Location is
empty/unset after trimming; otherwise it appends exactly one record with
release status "In Storage", empty `released_dt` and `released_to`, and
`last_updated` stamped to now. -/
theorem add_save_validates_and_appends
    (freshId : String) (inp : AddInput) (now : String) (off : Int)
    (rows : List Record) :
    (validate_required (addRequired inp) ≠ [] ↔
      (pyStrip inp.deceased_name = "" ∨ pyStrip inp.body_tag_no = "" ∨
       inp.dod = none ∨ pyStrip inp.storage_location = "")) ∧
    (validate_required (addRequired inp) ≠ [] →
      (tabAddSave freshId inp now off rows).store = rows ∧
      (tabAddSave freshId inp now off rows).errors =
        validate_required (addRequired inp)) ∧
    (validate_required (addRequired inp) = [] →
      (tabAddSave freshId inp now off rows).store =
        rows ++ [createRecord freshId inp now off] ∧
      (tabAddSave freshId inp now off rows).store.length = rows.length + 1 ∧
      (tabAddSave freshId inp now off rows).errors = [] ∧
      (createRecord freshId inp now off).release_status = "In Storage" ∧
      (createRecord freshId inp now off).released_dt = "" ∧
      (createRecord freshId inp now off).released_to = "" ∧
      (createRecord freshId inp now off).last_updated = now) := by
  refine ⟨?_, ?_, ?_⟩
  · cases hd : inp.dod <;>
      by_cases h1 : pyStrip inp.deceased_name = "" <;>
      by_cases h2 : pyStrip inp.body_tag_no = "" <;>
      by_cases h4 : pyStrip inp.storage_location = "" <;>
      simp [validate_required, addRequired, fieldMissing, optDateVal, hd, h1, h2, h4]
  · intro hm
    simp [tabAddSave, hm]
  · intro hm
    simp [tabAddSave, hm, createRecord]

/-- C3 witness: a complete input appends one "In Storage" record with the
release fields empty; removing the deceased name aborts with label
"Deceased Name" and the store unchanged. -/
theorem add_save_validates_and_appends_witness :
    ((tabAddSave "u-9" sampleAdd "now" 330 sampleRows).store.length =
      sampleRows.length + 1 ∧
     (createRecord "u-9" sampleAdd "now" 330).release_status = "In Storage") ∧
    ((tabAddSave "u-9" sampleAddNoName "now" 330 sampleRows).store = sampleRows ∧
     (tabAddSave "u-9" sampleAddNoName "now" 330 sampleRows).errors =
       ["Deceased Name"]) :=
  have hfull := (add_save_validates_and_appends "u-9" sampleAdd "now" 330
    sampleRows).2.2 (by decide)
  have hmiss := (add_save_validates_and_appends "u-9" sampleAddNoName "now" 330
    sampleRows).2.1 (by decide)
  ⟨⟨hfull.2.1, hfull.2.2.2.1⟩, hmiss.1, hmiss.2.trans (by decide)⟩

/-- C6: the Mark as Released Now / Mark as Transferred Now handlers set
`release_status` to "Released" (resp. "Transferred"), `released_dt` and
`last_updated` to the respective `now_iso()` readings, and leave every
other field of the target record — including `released_to` — and every
other record of the store unchanged. -/
theorem mark_release_transfer_frame
    (rows : List Record) (i : Nat) (n1 n2 : String) (hi : i < rows.length) :
    (((markReleased rows i n1 n2).getD i default).release_status = "Released" ∧
     ((markReleased rows i n1 n2).getD i default).released_dt = n1 ∧
     ((markReleased rows i n1 n2).getD i default).last_updated = n2 ∧
     ((markReleased rows i n1 n2).getD i default).record_id = (rows.getD i default).record_id ∧
     ((markReleased rows i n1 n2).getD i default).body_tag_no = (rows.getD i default).body_tag_no ∧
     ((markReleased rows i n1 n2).getD i default).deceased_name = (rows.getD i default).deceased_name ∧
     ((markReleased rows i n1 n2).getD i default).age = (rows.getD i default).age ∧
     ((markReleased rows i n1 n2).getD i default).sex = (rows.getD i default).sex ∧
     ((markReleased rows i n1 n2).getD i default).dod_date = (rows.getD i default).dod_date ∧
     ((markReleased rows i n1 n2).getD i default).tod_time = (rows.getD i default).tod_time ∧
     ((markReleased rows i n1 n2).getD i default).cause_of_death = (rows.getD i default).cause_of_death ∧
     ((markReleased rows i n1 n2).getD i default).ward_unit = (rows.getD i default).ward_unit ∧
     ((markReleased rows i n1 n2).getD i default).brought_by = (rows.getD i default).brought_by ∧
     ((markReleased rows i n1 n2).getD i default).admitted_dt = (rows.getD i default).admitted_dt ∧
     ((markReleased rows i n1 n2).getD i default).storage_location = (rows.getD i default).storage_location ∧
     ((markReleased rows i n1 n2).getD i default).next_of_kin = (rows.getD i default).next_of_kin ∧
     ((markReleased rows i n1 n2).getD i default).next_of_kin_contact = (rows.getD i default).next_of_kin_contact ∧
     ((markReleased rows i n1 n2).getD i default).id_docs_seen = (rows.getD i default).id_docs_seen ∧
     ((markReleased rows i n1 n2).getD i default).autopsy_required = (rows.getD i default).autopsy_required ∧
     ((markReleased rows i n1 n2).getD i default).autopsy_date = (rows.getD i default).autopsy_date ∧
     ((markReleased rows i n1 n2).getD i default).released_to = (rows.getD i default).released_to ∧
     ((markReleased rows i n1 n2).getD i default).remarks = (rows.getD i default).remarks) ∧
    (∀ j, j ≠ i → (markReleased rows i n1 n2).getD j default = rows.getD j default) ∧
    (((markTransferred rows i n1 n2).getD i default).release_status = "Transferred" ∧
     ((markTransferred rows i n1 n2).getD i default).released_dt = n1 ∧
     ((markTransferred rows i n1 n2).getD i default).last_updated = n2 ∧
     ((markTransferred rows i n1 n2).getD i default).record_id = (rows.getD i default).record_id ∧
     ((markTransferred rows i n1 n2).getD i default).body_tag_no = (rows.getD i default).body_tag_no ∧
     ((markTransferred rows i n1 n2).getD i default).deceased_name = (rows.getD i default).deceased_name ∧
     ((markTransferred rows i n1 n2).getD i default).age = (rows.getD i default).age ∧
     ((markTransferred rows i n1 n2).getD i default).sex = (rows.getD i default).sex ∧
     ((markTransferred rows i n1 n2).getD i default).dod_date = (rows.getD i default).dod_date ∧
     ((markTransferred rows i n1 n2).getD i default).tod_time = (rows.getD i default).tod_time ∧
     ((markTransferred rows i n1 n2).getD i default).cause_of_death = (rows.getD i default).cause_of_death ∧
     ((markTransferred rows i n1 n2).getD i default).ward_unit = (rows.getD i default).ward_unit ∧
     ((markTransferred rows i n1 n2).getD i default).brought_by = (rows.getD i default).brought_by ∧
     ((markTransferred rows i n1 n2).getD i default).admitted_dt = (rows.getD i default).admitted_dt ∧
     ((markTransferred rows i n1 n2).getD i default).storage_location = (rows.getD i default).storage_location ∧
     ((markTransferred rows i n1 n2).getD i default).next_of_kin = (rows.getD i default).next_of_kin ∧
     ((markTransferred rows i n1 n2).getD i default).next_of_kin_contact = (rows.getD i default).next_of_kin_contact ∧
     ((markTransferred rows i n1 n2).getD i default).id_docs_seen = (rows.getD i default).id_docs_seen ∧
     ((markTransferred rows i n1 n2).getD i default).autopsy_required = (rows.getD i default).autopsy_required ∧
     ((markTransferred rows i n1 n2).getD i default).autopsy_date = (rows.getD i default).autopsy_date ∧
     ((markTransferred rows i n1 n2).getD i default).released_to = (rows.getD i default).released_to ∧
     ((markTransferred rows i n1 n2).getD i default).remarks = (rows.getD i default).remarks) ∧
    (∀ j, j ≠ i → (markTransferred rows i n1 n2).getD j default = rows.getD j default) := by
  refine ⟨?_, fun j hj => updateAt_getD_ne _ _ _ _ hj,
    ?_, fun j hj => updateAt_getD_ne _ _ _ _ hj⟩
  · rw [markReleased, updateAt_getD_self _ _ _ hi]
    exact ⟨rfl, rfl, rfl, rfl, rfl, rfl, rfl, rfl, rfl, rfl, rfl, rfl, rfl,
      rfl, rfl, rfl, rfl, rfl, rfl, rfl, rfl, rfl⟩
  · rw [markTransferred, updateAt_getD_self _ _ _ hi]
    exact ⟨rfl, rfl, rfl, rfl, rfl, rfl, rfl, rfl, rfl, rfl, rfl, rfl, rfl,
      rfl, rfl, rfl, rfl, rfl, rfl, rfl, rfl, rfl⟩

/-- C6 witness: marking the concrete one-record store released sets exactly
the three fields and keeps `released_to` (empty here) unchanged. -/
theorem mark_release_transfer_frame_witness :
    ((markReleased sampleRows 0 "t1" "t2").getD 0 default).release_status = "Released" ∧
    ((markReleased sampleRows 0 "t1" "t2").getD 0 default).released_dt = "t1" ∧
    ((markReleased sampleRows 0 "t1" "t2").getD 0 default).last_updated = "t2" ∧
    ((markReleased sampleRows 0 "t1" "t2").getD 0 default).released_to =
      (sampleRows.getD 0 default).released_to :=
  have h := (mark_release_transfer_frame sampleRows 0 "t1" "t2" (by decide)).1
  ⟨h.1, h.2.1, h.2.2.1, h.2.2.2.2.2.2.2.2.2.2.2.2.2.2.2.2.2.2.2.2.1⟩

/-- C10: the quick actions carry no guard on the current status: on any
record, in any current `release_status`, they overwrite `release_status`
and `released_dt`, so Released → Transferred, Transferred → Released and
re-release with a fresh `released_dt` are all reachable through the quick
actions alone. -/
theorem quick_actions_unguarded (r : Record) (a b c d : String) :
    (markReleasedRec r a b).release_status = "Released" ∧
    (markTransferredRec r a b).release_status = "Transferred" ∧
    (markTransferredRec (markReleasedRec r a b) c d).release_status = "Transferred" ∧
    (markReleasedRec (markTransferredRec r a b) c d).release_status = "Released" ∧
    (markReleasedRec (markReleasedRec r a b) c d).released_dt = c ∧
    (markReleasedRec (markTransferredRec r a b) c d).released_dt = c ∧
    (markTransferredRec (markReleasedRec r a b) c d).released_dt = c :=
  ⟨rfl, rfl, rfl, rfl, rfl, rfl, rfl⟩

/-- C4: `combine_date_time` yields "" for an absent date (None or blank),
defaults the time to 00:00 when the time input is blank, yields "" (never
raising) when either component fails to parse, and on success returns the
wall time with the local offset attached, truncated to the minute; in
particular the two spec examples hold. -/
theorem combine_date_time_contract :
    (∀ t off, combine_date_time .dnone t off = "") ∧
    (∀ s t off, pyStrip s = "" → combine_date_time (.dstr s) t off = "") ∧
    (∀ s t off, parse_date_str s = none → combine_date_time (.dstr s) t off = "") ∧
    (∀ s ts off, pyStrip ts ≠ "" → parse_time_str ts = none →
      combine_date_time (.dstr s) (.tstr ts) off = "") ∧
    (∀ d ts off, pyStrip ts ≠ "" → parse_time_str ts = none →
      combine_date_time (.ddate d) (.tstr ts) off = "") ∧
    (∀ d s off, pyStrip s = "" →
      combine_date_time (.ddate d) (.tstr s) off = isoMin d ⟨0, 0⟩ off) ∧
    (∀ s d t tt off, pyStrip s ≠ "" → parse_date_str s = some d →
      parseTimeInput t = some tt →
      combine_date_time (.dstr s) t off = isoMin d tt off) ∧
    (∀ d t tt off, parseTimeInput t = some tt →
      combine_date_time (.ddate d) t off = isoMin d tt off) ∧
    (∀ off, combine_date_time (.dstr "2024-01-05") (.tstr "") off =
      "2024-01-05T00:00" ++ offsetStr off) := by
  refine ⟨fun t off => rfl, ?_, ?_, ?_, ?_, ?_, ?_, ?_, fun off => rfl⟩
  · intro s t off h
    simp [combine_date_time, h]
  · intro s t off h
    by_cases hs : pyStrip s = "" <;> simp [combine_date_time, hs, h]
  · intro s ts off hts hnone
    by_cases hs : pyStrip s = "" <;>
      cases hps : parse_date_str s <;>
      simp [combine_date_time, parseTimeInput, hs, hps, hts, hnone]
  · intro d ts off hts hnone
    simp [combine_date_time, parseTimeInput, hts, hnone]
  · intro d s off h
    have h00 : parse_time_str "00:00" = some ⟨0, 0⟩ := rfl
    simp [combine_date_time, parseTimeInput, h, h00]
  · intro s d t tt off hs hd ht
    simp [combine_date_time, hs, hd, ht]
  · intro d t tt off ht
    simp [combine_date_time, ht]

/-- C4 witness: an out-of-range month is a parse failure yielding "", a
garbled time yields "", a blank time defaults to 00:00, and a concrete
success is rendered at minute precision. -/
theorem combine_date_time_contract_witness :
    combine_date_time .dnone (.tstr "23:59") 0 = "" ∧
    combine_date_time (.dstr "   ") (.ttime ⟨1, 2⟩) 0 = "" ∧
    combine_date_time (.dstr "2024-13-05") (.ttime ⟨1, 2⟩) 0 = "" ∧
    combine_date_time (.dstr "2024-01-05") (.tstr "junk") 0 = "" ∧
    combine_date_time (.ddate ⟨2024, 1, 5⟩) (.tstr "junk") 0 = "" ∧
    combine_date_time (.ddate ⟨2024, 1, 5⟩) (.tstr " ") 60 = isoMin ⟨2024, 1, 5⟩ ⟨0, 0⟩ 60 ∧
    combine_date_time (.dstr "2024-01-05") (.ttime ⟨7, 30⟩) 330 = isoMin ⟨2024, 1, 5⟩ ⟨7, 30⟩ 330 ∧
    combine_date_time (.dstr "2024-01-05") (.tstr "") (-330) =
      "2024-01-05T00:00" ++ offsetStr (-330) :=
  have h := combine_date_time_contract
  ⟨h.1 (.tstr "23:59") 0,
   h.2.1 "   " (.ttime ⟨1, 2⟩) 0 (by decide),
   h.2.2.1 "2024-13-05" (.ttime ⟨1, 2⟩) 0 (by decide),
   h.2.2.2.1 "2024-01-05" "junk" 0 (by decide) (by decide),
   h.2.2.2.2.1 ⟨2024, 1, 5⟩ "junk" 0 (by decide) (by decide),
   h.2.2.2.2.2.1 ⟨2024, 1, 5⟩ " " 60 (by decide),
   h.2.2.2.2.2.2.1 "2024-01-05" ⟨2024, 1, 5⟩ (.ttime ⟨7, 30⟩) ⟨7, 30⟩ 330
     (by decide) (by decide) rfl,
   h.2.2.2.2.2.2.2.2 (-330)⟩

theorem filterStatus_sublist (s : List String) (rows : List Record) :
    List.Sublist (filterStatus s rows) rows := by
  unfold filterStatus
  split
  · exact List.Sublist.refl _
  · exact List.filter_sublist _

theorem filterSex_sublist (x : List String) (rows : List Record) :
    List.Sublist (filterSex x rows) rows := by
  unfold filterSex
  split
  · exact List.Sublist.refl _
  · exact List.filter_sublist _

theorem filterFrom_sublist (d : Option DateD) (rows : List Record) :
    List.Sublist (filterFrom d rows) rows := by
  unfold filterFrom
  cases d
  · exact List.Sublist.refl _
  · exact List.filter_sublist _

theorem filterTo_sublist (d : Option DateD) (rows : List Record) :
    List.Sublist (filterTo d rows) rows := by
  unfold filterTo
  cases d
  · exact List.Sublist.refl _
  · exact List.filter_sublist _

theorem filterName_sublist (q : String) (rows : List Record) :
    List.Sublist (filterName q rows) rows := by
  unfold filterName
  split
  · exact List.Sublist.refl _
  · exact List.filter_sublist _

theorem filterLoc_sublist (q : String) (rows : List Record) :
    List.Sublist (filterLoc q rows) rows := by
  unfold filterLoc
  split
  · exact List.Sublist.refl _
  · exact List.filter_sublist _

theorem filterCause_sublist (q : String) (rows : List Record) :
    List.Sublist (filterCause q rows) rows := by
  unfold filterCause
  split
  · exact List.Sublist.refl _
  · exact List.filter_sublist _

/-- C9: the status and sex membership filters commute; the whole Browse
filter pipeline returns a sublist of the loaded rows (stable filtering, the
original relative order is preserved, no resort); an empty status or sex
selection applies no filter. -/
theorem filters_commute_and_stable (s x : List String) (p : FilterParams)
    (rows : List Record) :
    filterStatus s (filterSex x rows) = filterSex x (filterStatus s rows) ∧
    List.Sublist (applyFilters p rows) rows ∧
    filterStatus [] rows = rows ∧
    filterSex [] rows = rows := by
  refine ⟨?_, ?_, by simp [filterStatus], by simp [filterSex]⟩
  · by_cases hs : s = [] <;> by_cases hx : x = [] <;>
      simp [filterStatus, filterSex, hs, hx, List.filter_filter, Bool.and_comm]
  · unfold applyFilters
    exact (filterCause_sublist _ _).trans ((filterLoc_sublist _ _).trans
      ((filterName_sublist _ _).trans ((filterTo_sublist _ _).trans
      ((filterFrom_sublist _ _).trans ((filterSex_sublist _ _).trans
      (filterStatus_sublist _ _))))))

/-! ## Table lemmas -/

theorem getD_map_indexOf {β : Type} (l : List String) (g : String → β) (c : String)
    (d : β) (hc : c ∈ l) :
    (l.map g).getD (l.indexOf c) d = g c := by
  induction l with
  | nil => cases hc
  | cons a as ih =>
    by_cases h : a = c
    · subst h
      simp [List.indexOf_cons_self]
    · rw [List.map_cons, List.indexOf_cons_ne _ h, List.getD_cons_succ]
      exact ih (List.mem_of_ne_of_mem (Ne.symm h) hc)

theorem addColsStep_wf (t : Table) (c : String) (h : t.Wf) : (addColsStep t c).Wf := by
  unfold addColsStep
  split
  · exact h
  · intro r hr
    simp only [List.mem_map] at hr
    obtain ⟨r0, hr0, rfl⟩ := hr
    simp [h r0 hr0]

theorem addCols_wf (cols : List String) (t : Table) (h : t.Wf) : (addCols cols t).Wf := by
  induction cols generalizing t with
  | nil => exact h
  | cons c cs ih => exact ih _ (addColsStep_wf t c h)

theorem addColsStep_header_ext (t : Table) (c : String) :
    ∃ ext, (addColsStep t c).header = t.header ++ ext := by
  unfold addColsStep
  split
  · exact ⟨[], by simp⟩
  · exact ⟨[c], rfl⟩

theorem addCols_header_ext (cols : List String) (t : Table) :
    ∃ ext, (addCols cols t).header = t.header ++ ext := by
  induction cols generalizing t with
  | nil => exact ⟨[], by simp [addCols]⟩
  | cons c cs ih =>
    obtain ⟨e1, h1⟩ := addColsStep_header_ext t c
    obtain ⟨e2, h2⟩ := ih (addColsStep t c)
    refine ⟨e1 ++ e2, ?_⟩
    rw [show addCols (c :: cs) t = addCols cs (addColsStep t c) from rfl, h2, h1,
      List.append_assoc]

theorem addColsStep_rows_length (t : Table) (c : String) :
    (addColsStep t c).rows.length = t.rows.length := by
  unfold addColsStep
  split
  · rfl
  · simp

theorem addCols_rows_length (cols : List String) (t : Table) :
    (addCols cols t).rows.length = t.rows.length := by
  induction cols generalizing t with
  | nil => rfl
  | cons c cs ih =>
    rw [show addCols (c :: cs) t = addCols cs (addColsStep t c) from rfl, ih,
      addColsStep_rows_length]

theorem addColsStep_cell_mem (t : Table) (x c : String) (h : t.Wf)
    (hc : c ∈ t.header) (i : Nat) :
    (addColsStep t x).cell i c = t.cell i c := by
  unfold addColsStep
  split
  · rfl
  · unfold Table.cell
    simp only
    rw [List.indexOf_append_of_mem hc]
    by_cases hi : i < t.rows.length
    · have e1 : (t.rows.map (fun r => r ++ [""])).getD i [] = t.rows[i] ++ [""] := by
        rw [List.getD_eq_getElem _ _ (by simpa using hi), List.getElem_map]
      have e2 : t.rows.getD i [] = t.rows[i] := List.getD_eq_getElem _ _ hi
      rw [e1, e2]
      have hlen : (t.rows[i]).length = t.header.length :=
        h _ (List.getElem_mem hi)
      have hidx : t.header.indexOf c < (t.rows[i]).length := by
        rw [hlen]
        exact List.indexOf_lt_length.2 hc
      exact List.getD_append _ _ _ _ hidx
    · have e1 : (t.rows.map (fun r => r ++ [""])).getD i [] = [] :=
        List.getD_eq_default _ _ (by simpa using Nat.le_of_not_lt hi)
      have e2 : t.rows.getD i [] = [] := List.getD_eq_default _ _ (Nat.le_of_not_lt hi)
      rw [e1, e2]

theorem addCols_cell_mem (cols : List String) (t : Table) (c : String) (h : t.Wf)
    (hc : c ∈ t.header) (i : Nat) :
    (addCols cols t).cell i c = t.cell i c := by
  induction cols generalizing t with
  | nil => rfl
  | cons a as ih =>
    rw [show addCols (a :: as) t = addCols as (addColsStep t a) from rfl]
    obtain ⟨ext, hext⟩ := addColsStep_header_ext t a
    have hc' : c ∈ (addColsStep t a).header := by
      rw [hext]
      exact List.mem_append_left _ hc
    rw [ih _ (addColsStep_wf t a h) hc', addColsStep_cell_mem t a c h hc]

theorem addCols_cell_new (cols : List String) (t : Table) (c : String) (h : t.Wf)
    (hnc : c ∉ t.header) (hc : c ∈ cols) (i : Nat) (hi : i < t.rows.length) :
    (addCols cols t).cell i c = "" ∧ c ∈ (addCols cols t).header := by
  induction cols generalizing t with
  | nil => cases hc
  | cons a as ih =>
    rw [show addCols (a :: as) t = addCols as (addColsStep t a) from rfl]
    by_cases hax : a ∈ t.header
    · have hstep : addColsStep t a = t := by
        unfold addColsStep
        simp [hax]
      rw [hstep]
      have hca : c ≠ a := fun he => hnc (he ▸ hax)
      exact ih t h hnc (List.mem_of_ne_of_mem hca hc) hi
    · have hstep : addColsStep t a =
          { header := t.header ++ [a], rows := t.rows.map (fun r => r ++ [""]) } := by
        unfold addColsStep
        simp [hax]
      by_cases hac : a = c
      · subst hac
        have hwf' := addColsStep_wf t a h
        have hc' : a ∈ (addColsStep t a).header := by
          rw [hstep]
          simp
        constructor
        · rw [addCols_cell_mem as _ a hwf' hc', hstep]
          unfold Table.cell
          simp only
          rw [List.indexOf_append_of_not_mem hnc, List.indexOf_cons_self]
          have e1 : (t.rows.map (fun r => r ++ [""])).getD i [] = t.rows[i] ++ [""] := by
            rw [List.getD_eq_getElem _ _ (by simpa using hi), List.getElem_map]
          rw [e1]
          have hlen : (t.rows[i]).length = t.header.length :=
            h _ (List.getElem_mem hi)
          rw [List.getD_append_right _ _ _ _ (by rw [hlen]; omega)]
          simp [hlen]
        · obtain ⟨ext, hext⟩ := addCols_header_ext as (addColsStep t a)
          rw [hext]
          exact List.mem_append_left _ hc'
      · have hwf' := addColsStep_wf t a h
        have hnc' : c ∉ (addColsStep t a).header := by
          rw [hstep]
          simp only [List.mem_append, List.mem_singleton]
          rintro (hin | rfl)
          · exact hnc hin
          · exact hac rfl
        have hi' : i < (addColsStep t a).rows.length := by
          rw [addColsStep_rows_length]
          exact hi
        exact ih _ hwf' hnc' (List.mem_of_ne_of_mem (Ne.symm hac) hc) hi'

theorem selectCols_cell (u : Table) (c : String) (hc : c ∈ COLUMNS) (i : Nat)
    (hi : i < u.rows.length) :
    (selectCols u).cell i c = u.cell i c := by
  unfold selectCols Table.cell
  simp only
  have e1 : (u.rows.map (fun r =>
      COLUMNS.map (fun c2 => r.getD (u.header.indexOf c2) ""))).getD i [] =
      COLUMNS.map (fun c2 => (u.rows[i]).getD (u.header.indexOf c2) "") := by
    rw [List.getD_eq_getElem _ _ (by simpa using hi), List.getElem_map]
  have e2 : u.rows.getD i [] = u.rows[i] := List.getD_eq_getElem _ _ hi
  rw [e1, e2, getD_map_indexOf COLUMNS _ c "" hc]

theorem selectCols_rows_length (u : Table) :
    (selectCols u).rows.length = u.rows.length := by
  unfold selectCols
  simp

theorem saveData_loadData (t : Table) : save_data (load_data t) = load_data t := by
  unfold save_data load_data selectCols
  simp only [List.map_map]
  congr 1

theorem loadData_rows_length (t : Table) :
    (load_data t).rows.length = t.rows.length := by
  unfold load_data
  rw [selectCols_rows_length, addCols_rows_length]

theorem loadData_cell_mem (t : Table) (c : String) (h : t.Wf) (hcC : c ∈ COLUMNS)
    (hch : c ∈ t.header) (i : Nat) (hi : i < t.rows.length) :
    (load_data t).cell i c = t.cell i c := by
  unfold load_data
  rw [selectCols_cell _ c hcC i (by rw [addCols_rows_length]; exact hi),
    addCols_cell_mem COLUMNS t c h hch]

theorem loadData_cell_new (t : Table) (c : String) (h : t.Wf) (hcC : c ∈ COLUMNS)
    (hch : c ∉ t.header) (i : Nat) (hi : i < t.rows.length) :
    (load_data t).cell i c = "" := by
  unfold load_data
  rw [selectCols_cell _ c hcC i (by rw [addCols_rows_length]; exact hi)]
  exact (addCols_cell_new COLUMNS t c h hch hcC i hi).1

/-- C5: loading a persisted table injects every declared-but-absent column
with empty-string values, drops unknown columns by reindexing to the
canonical column order, keeps every declared column's values, and saving
the loaded result rewrites exactly that normalized table. -/
theorem load_save_round_trip (t : Table) (hwf : t.Wf) :
    (load_data t).header = COLUMNS ∧
    (load_data t).rows.length = t.rows.length ∧
    (∀ c, c ∈ COLUMNS → c ∉ t.header → ∀ i, i < t.rows.length →
      (load_data t).cell i c = "") ∧
    (∀ c, c ∈ COLUMNS → c ∈ t.header → ∀ i, i < t.rows.length →
      (load_data t).cell i c = t.cell i c) ∧
    save_data (load_data t) = load_data t :=
  ⟨rfl, loadData_rows_length t,
   fun c hcC hch i hi => loadData_cell_new t c hwf hcC hch i hi,
   fun c hcC hch i hi => loadData_cell_mem t c hwf hcC hch i hi,
   saveData_loadData t⟩

/-- C5 witness: loading the concrete file injects the absent `remarks`
column as "", keeps the stored `sex` value, drops `mystery_col` (the header
becomes exactly the canonical columns), and saving back is a no-op. -/
theorem load_save_round_trip_witness :
    (load_data sampleFileTable).header = COLUMNS ∧
    (load_data sampleFileTable).cell 0 "remarks" = "" ∧
    (load_data sampleFileTable).cell 0 "sex" = sampleFileTable.cell 0 "sex" ∧
    save_data (load_data sampleFileTable) = load_data sampleFileTable :=
  have h := load_save_round_trip sampleFileTable (by decide)
  ⟨h.1, h.2.2.1 "remarks" (by decide) (by decide) 0 (by decide),
   h.2.2.2.1 "sex" (by decide) (by decide) 0 (by decide),
   h.2.2.2.2⟩

/-- C8: the import handler aligns the uploaded table to the canonical
schema — absent declared columns become empty-string columns, unknown
columns are dropped, canonical order — and overwrites the whole store with
it; a parse failure is caught, reported, and leaves the store exactly as it
was. -/
theorem import_replace_or_report (store : Table) (u : UploadParse) :
    (∀ m, u = .failed m →
      importHandler store u = (store, some ("Import failed: " ++ m))) ∧
    (∀ tu, u = .parsed tu → tu.Wf →
      (importHandler store u).2 = none ∧
      (importHandler store u).1.header = COLUMNS ∧
      (importHandler store u).1.rows.length = tu.rows.length ∧
      (∀ c, c ∈ COLUMNS → c ∉ tu.header → ∀ i, i < tu.rows.length →
        (importHandler store u).1.cell i c = "") ∧
      (∀ c, c ∈ COLUMNS → c ∈ tu.header → ∀ i, i < tu.rows.length →
        (importHandler store u).1.cell i c = tu.cell i c)) := by
  constructor
  · rintro m rfl
    rfl
  · rintro tu rfl hwf
    have halign : (importHandler store (.parsed tu)).1 = load_data tu := by
      show save_data (load_data tu) = load_data tu
      exact saveData_loadData tu
    refine ⟨rfl, ?_, ?_, ?_, ?_⟩
    · rw [halign]
      rfl
    · rw [halign]
      exact loadData_rows_length tu
    · intro c hcC hch i hi
      rw [halign]
      exact loadData_cell_new tu c hwf hcC hch i hi
    · intro c hcC hch i hi
      rw [halign]
      exact loadData_cell_mem tu c hwf hcC hch i hi

/-- C8 witness: importing the concrete file (missing `remarks`, carrying
`mystery_col`) stores a table with `remarks` present and empty and the
known data preserved; a failed parse leaves the store untouched. -/
theorem import_replace_or_report_witness :
    (importHandler sampleFileTable (.failed "bad header")) =
      (sampleFileTable, some "Import failed: bad header") ∧
    (importHandler sampleFileTable (.parsed sampleFileTable)).1.cell 0 "remarks" = "" ∧
    (importHandler sampleFileTable (.parsed sampleFileTable)).1.cell 0 "record_id" = "u-1" :=
  have h := import_replace_or_report sampleFileTable (.failed "bad header")
  have h2 := import_replace_or_report sampleFileTable (.parsed sampleFileTable)
  ⟨h.1 "bad header" rfl,
   (h2.2 sampleFileTable rfl (by decide)).2.2.2.1 "remarks" (by decide) (by decide) 0
     (by decide),
   ((h2.2 sampleFileTable rfl (by decide)).2.2.2.2 "record_id" (by decide) (by decide) 0
     (by decide)).trans (by decide)⟩

/-- C7 counterexample: loading a concrete table whose `sex` cell holds the
out-of-set value "XYZ" leaves "XYZ" in place — the loaded value is not a
member of the declared option set, so `load_data` does not normalize
out-of-set enum values at load time. -/
theorem load_keeps_out_of_set_enum :
    (load_data sampleFileTable).cell 0 "sex" = "XYZ" ∧
    "XYZ" ∉ SEX_OPTIONS ∧
    ¬ (load_data sampleFileTable).cell 0 "sex" ∈ SEX_OPTIONS := by
  decide

/-- C7 (amended): `load_data` accepts a table carrying out-of-set enum
values without rejecting it (same row count) and passes the stored values
through unchanged; the normalization to a safe default from the declared
option set happens in the Edit tab's selectbox index fallback, which maps
any out-of-set `sex` to "Unknown" and any out-of-set `release_status` to
"In Storage". -/
theorem load_tolerates_edit_fallback_normalizes
    (t : Table) (hwf : t.Wf) (i : Nat) (hi : i < t.rows.length)
    (hsex : "sex" ∈ t.header) (hst : "release_status" ∈ t.header) :
    (load_data t).rows.length = t.rows.length ∧
    (load_data t).cell i "sex" = t.cell i "sex" ∧
    (load_data t).cell i "release_status" = t.cell i "release_status" ∧
    (∀ v, v ∉ SEX_OPTIONS → SEX_OPTIONS.getD (sex_index v) "" = "Unknown") ∧
    (∀ v, v ∉ STATUS_OPTIONS →
      STATUS_OPTIONS.getD (status_index v) "" = "In Storage") := by
  refine ⟨loadData_rows_length t,
    loadData_cell_mem t "sex" hwf (by decide) hsex i hi,
    loadData_cell_mem t "release_status" hwf (by decide) hst i hi, ?_, ?_⟩
  · intro v hv
    unfold sex_index
    rw [if_neg hv]
    decide
  · intro v hv
    unfold status_index
    rw [if_neg hv]
    decide

/-- C7 witness: on the concrete table, load passes the out-of-set values
through, and the edit-form fallbacks map them to the safe defaults. -/
theorem load_tolerates_edit_fallback_normalizes_witness :
    (load_data sampleFileTable).cell 0 "sex" = sampleFileTable.cell 0 "sex" ∧
    SEX_OPTIONS.getD (sex_index "XYZ") "" = "Unknown" ∧
    STATUS_OPTIONS.getD (status_index "Gone") "" = "In Storage" :=
  have h := load_tolerates_edit_fallback_normalizes sampleFileTable (by decide) 0
    (by decide) (by decide) (by decide)
  ⟨h.2.1, h.2.2.2.1 "XYZ" (by decide), h.2.2.2.2 "Gone" (by decide)⟩

end Mortuary
